import Mathlib

/-!
# Verification of mm-network-analyzer (src/main.go)

Shallow embedding of the diagnostic collector in `src/main.go`: a fan-out
scheduler launches probes concurrently, each probe appends Output Records
(`zipFile`) and Error Records to the shared `analyzer` state; after a
wait-for-all barrier, `addErrors` compiles the error list into an
`errors.txt` record and `writeFiles` serializes every record into a zip
archive.

External effects (process execution, HTTP, file reads, zip I/O) are
modelled by their observable outcomes, passed in as parameters; everything
that is the program's own logic (which records are stored, with which
names, with which wrapped error messages, in which order, and how archive
failures propagate) is translated directly from the Go source.
Byte sequences (`[]byte`) are modelled as `String` values: the program
treats all contents as opaque byte blobs apart from concatenation in
`addErrors`.
-/

namespace MMNetworkAnalyzer

/-- `host` constant, main.go line 21. -/
def host : String := "geoip.maxmind.com"

/-- `zipFileName` constant, main.go line 22. -/
def zipFileName : String := "mm-network-analysis.zip"

/-- The `zipFile` struct (main.go lines 25-28): one named byte blob
destined for a single archive entry. -/
structure ZipFile where
  name : String
  contents : String
  deriving DecidableEq

/-- The mutable state of the `analyzer` struct (main.go lines 30-41) that
the probes share: the two append-only Result Store sequences. The zip
writer and backing file are modelled separately (see `writeFilesFrom` and
`finalDiskBytes`); the two mutexes guard the appends and are modelled by
treating each append as one atomic store operation (`StoreOp`). -/
structure Analyzer where
  errors : List String
  zipFiles : List ZipFile
  deriving DecidableEq

/-- `github.com/pkg/errors`.`Wrap(err, msg)`: the wrapped error's message
is the context, a colon-space separator, then the cause's message. -/
def wrapErr (msg cause : String) : String := msg ++ ": " ++ cause

/-- `storeFile` (main.go lines 136-140): append one Output Record under
the zip-files mutex. -/
def storeFile (a : Analyzer) (name contents : String) : Analyzer :=
  { a with zipFiles := a.zipFiles ++ [⟨name, contents⟩] }

/-- `storeError` (main.go lines 142-146): append one Error Record under
the errors mutex. -/
def storeError (a : Analyzer) (e : String) : Analyzer :=
  { a with errors := a.errors ++ [e] }

/-- `createStoreCommand` (main.go lines 160-172). The external command
invocation `cmd.CombinedOutput()` is modelled by its outcome: the captured
combined stdout+stderr bytes `output` and the optional execution error
`cmdErr`. On error the wrapped error (`errors.Wrapf(err, "error getting
data for %s", f)`) is stored first; the captured output is stored
unconditionally afterwards. `command` and `args` configure the external
process only, so they do not influence the stored records beyond the
outcome. -/
def createStoreCommand (f command : String) (args : List String)
    (output : String) (cmdErr : Option String) (a : Analyzer) : Analyzer :=
  let a' := match cmdErr with
    | some e => storeError a (wrapErr ("error getting data for " ++ f) e)
    | none => a
  storeFile a' f output

/-- Outcome of the two fallible steps of `addIP` (main.go lines 174-189):
the `http.Get` can fail, then reading the response body can fail,
otherwise the body bytes are obtained. -/
inductive FetchOutcome where
  | getFailure (e : String)
  | readFailure (e : String)
  | success (body : String)
  deriving DecidableEq

/-- `addIP` (main.go lines 174-189): GET `http://geoip.maxmind.com/app/update_getipaddr`;
on failure store only the wrapped error and return; on success store the
body as `ip-address.txt`. -/
def addIP (o : FetchOutcome) (a : Analyzer) : Analyzer :=
  match o with
  | .getFailure e => storeError a (wrapErr "error getting IP address" e)
  | .readFailure e => storeError a (wrapErr "error reading IP address body" e)
  | .success body => storeFile a "ip-address.txt" body

/-- `addResolvConf` (main.go lines 191-199): read `/etc/resolv.conf`; on
failure store only the wrapped error and return; on success store the file
contents as `resolv.conf`. -/
def addResolvConf (o : Except String String) (a : Analyzer) : Analyzer :=
  match o with
  | .error e => storeError a (wrapErr "error reading resolv.conf" e)
  | .ok contents => storeFile a "resolv.conf" contents

/-- One iteration of the `addErrors` loop (main.go line 209):
`fmt.Fprintf(buf, "%+v\n\n----------\n\n", storedErr)` renders the stored
error followed by the delimiter. -/
def errorBlock (e : String) : String := e ++ "\n\n----------\n\n"

/-- The buffer built by the `addErrors` loop (main.go lines 207-213): the
blocks of every stored error, concatenated in accumulation order. -/
def renderErrors : List String → String
  | [] => ""
  | e :: rest => errorBlock e ++ renderErrors rest

/-- `addErrors` (main.go lines 201-216): under the errors mutex, if no
errors were accumulated do nothing; otherwise store the rendered buffer as
the `errors.txt` Output Record. (`fmt.Fprintf` into a `bytes.Buffer`
cannot fail, so the Go function's error return is always nil and the
effect is modelled as total.) -/
def addErrors (a : Analyzer) : Analyzer :=
  if a.errors = [] then a
  else storeFile a "errors.txt" (renderErrors a.errors)

/-! ## Scheduler model

`main` (lines 85-94) spawns one goroutine per task and waits on a
`sync.WaitGroup` barrier. Each probe's observable effect on the shared
`analyzer` is a sequence of atomic, mutex-guarded appends (`StoreOp`).
A concurrent execution is modelled by the order in which those appends
hit the store: any interleaving of the probes' operation sequences, which
is (at least) a permutation of the concatenation of all probes'
operations, each probe contributing its operations exactly once. -/

/-- One atomic append to the Result Store: `storeFile` or `storeError`. -/
inductive StoreOp where
  | out (zf : ZipFile)
  | err (e : String)
  deriving DecidableEq

/-- Apply one atomic append to the analyzer state. -/
def applyOp (a : Analyzer) : StoreOp → Analyzer
  | .out zf => storeFile a zf.name zf.contents
  | .err e => storeError a e

/-- Run a schedule: the sequence of appends, in the order they acquired
the mutexes across all goroutines. -/
def runOps (a : Analyzer) (ops : List StoreOp) : Analyzer :=
  ops.foldl applyOp a

/-- The Output Records appended by a sequence of operations. -/
def opOutputs (ops : List StoreOp) : List ZipFile :=
  ops.filterMap fun o => match o with
    | .out zf => some zf
    | .err _ => none

/-- The Error Records appended by a sequence of operations. -/
def opErrors (ops : List StoreOp) : List String :=
  ops.filterMap fun o => match o with
    | .out _ => none
    | .err e => some e

/-- The operation sequence of a command probe (`createStoreCommand`'s
returned closure): the wrapped error first when the invocation failed,
then always the captured output. -/
def commandOps (f output : String) (cmdErr : Option String) : List StoreOp :=
  (match cmdErr with
    | some e => [.err (wrapErr ("error getting data for " ++ f) e)]
    | none => []) ++ [.out ⟨f, output⟩]

/-- The operation sequence of the fetch probe `addIP`. -/
def addIPOps (o : FetchOutcome) : List StoreOp :=
  match o with
  | .getFailure e => [.err (wrapErr "error getting IP address" e)]
  | .readFailure e => [.err (wrapErr "error reading IP address body" e)]
  | .success body => [.out ⟨"ip-address.txt", body⟩]

/-- The operation sequence of the read probe `addResolvConf`. -/
def addResolvConfOps (o : Except String String) : List StoreOp :=
  match o with
  | .error e => [.err (wrapErr "error reading resolv.conf" e)]
  | .ok contents => [.out ⟨"resolv.conf", contents⟩]

/-! ## Archiver model

`writeFiles` (main.go lines 218-228) iterates the stored records and calls
`writeFile` (lines 148-158) on each: `zipWriter.Create` makes a new entry,
then `Write` fills it. Zip I/O failures are modelled by an oracle giving
the outcome of the i-th `writeFile` call. On a `Create` failure no entry
is added; on a `Write` failure the entry was already created but holds
whatever prefix of the contents the failed write produced. -/

/-- Outcome of one `writeFile` call against the zip writer. -/
inductive WriteOutcome where
  | ok
  | createFailure (e : String)
  | writeFailure (written : String) (e : String)
  deriving DecidableEq

/-- `writeFile` (main.go lines 148-158), acting on the archive entry list
`w`: returns the new entry list and the wrapped error, if any. -/
def writeFileZ (o : WriteOutcome) (zf : ZipFile) (w : List ZipFile) :
    List ZipFile × Option String :=
  match o with
  | .ok => (w ++ [zf], none)
  | .createFailure e =>
      (w, some (wrapErr ("error creating " ++ zf.name ++ " in zip file") e))
  | .writeFailure written e =>
      (w ++ [⟨zf.name, written⟩],
        some (wrapErr ("error writing " ++ zf.name ++ " to zip file") e))

/-- The loop of `writeFiles` (main.go lines 221-226), starting at call
index `i` with archive entries `w`: write each record in order; the first
failure returns the wrapped error immediately, skipping the rest. -/
def writeFilesFrom (oc : Nat → WriteOutcome) :
    List ZipFile → Nat → List ZipFile → List ZipFile × Option String
  | [], _, w => (w, none)
  | zf :: rest, i, w =>
    match writeFileZ (oc i) zf w with
    | (w', none) => writeFilesFrom oc rest (i + 1) w'
    | (w', some e) => (w', some e)

/-- `writeFiles` (main.go lines 218-228): iterate all stored Output
Records once, in store order, against an initially given archive entry
list. The analyzer's own sequences are read only, never modified, and the
first error is returned to the caller (`main` logs it), not stored. -/
def writeFiles (oc : Nat → WriteOutcome) (a : Analyzer) (w : List ZipFile) :
    List ZipFile × Option String :=
  writeFilesFrom oc a.zipFiles 0 w

/-! ## Archive-file open model (`newAnalyzer`)

`newAnalyzer` (main.go lines 112-122) opens the archive with
`os.OpenFile(zipFileName, os.O_WRONLY|os.O_CREATE, 0600)`. The flag
constants are Go's (linux values), and POSIX open/write semantics at the
byte level: without `O_TRUNC` an existing file keeps its old contents and
writing starts at offset 0, so old bytes beyond the written length
survive. -/

def O_WRONLY : Nat := 1
def O_CREATE : Nat := 64
def O_TRUNC : Nat := 512

/-- The flags passed to `os.OpenFile` at main.go line 113. -/
def newAnalyzerOpenFlags : Nat := O_WRONLY ||| O_CREATE

/-- Contents of the file right after `open`: truncated to empty when
`O_TRUNC` is set, otherwise the pre-existing bytes are kept. -/
def contentsAfterOpen (flags : Nat) (existing : List Nat) : List Nat :=
  if flags &&& O_TRUNC ≠ 0 then [] else existing

/-- Sequential writes from offset 0 over the opened contents: the file
ends with the new bytes followed by whatever old bytes lie beyond them. -/
def writeFromStart (initial newBytes : List Nat) : List Nat :=
  newBytes ++ initial.drop newBytes.length

/-- Final on-disk bytes of the archive file: open with `flags` over the
`existing` bytes, then write the `newBytes` of the fresh archive from
offset 0. -/
def finalDiskBytes (flags : Nat) (existing newBytes : List Nat) : List Nat :=
  writeFromStart (contentsAfterOpen flags existing) newBytes

/-- `newAnalyzer` (main.go lines 112-122): on open failure return the
wrapped error; on success return the analyzer with empty Result Store
sequences. -/
def newAnalyzer (openResult : Except String Unit) : Except String Analyzer :=
  match openResult with
  | .error e => .error (wrapErr ("error opening " ++ zipFileName) e)
  | .ok _ => .ok { errors := [], zipFiles := [] }

/-! ## Nil-analyzer model (`main`, lines 44-47)

`a, err := newAnalyzer(); if err != nil { log.Println(err) }` — on failure
`main` logs and continues with `a == nil`. Calling a method on the nil
pointer is legal in Go until the method body dereferences the receiver;
`storeFile` and `storeError` immediately take a mutex on the pointed-to
struct, which panics on nil. -/

/-- The analyzer pointer bound in `main`: `none` models the nil pointer
kept after a failed `newAnalyzer`. -/
def mainAnalyzerRef (r : Except String Analyzer) : Option Analyzer :=
  r.toOption

/-- The Go runtime panic message for a nil-pointer dereference. -/
def nilPanicMsg : String :=
  "runtime error: invalid memory address or nil pointer dereference"

/-- A `a.storeFile(...)` call through the possibly-nil pointer: panics on
nil, otherwise performs the append. -/
def storeFileRef (r : Option Analyzer) (name contents : String) :
    Except String Analyzer :=
  match r with
  | none => .error nilPanicMsg
  | some a => .ok (storeFile a name contents)

/-- A `a.storeError(...)` call through the possibly-nil pointer: panics on
nil, otherwise performs the append. -/
def storeErrorRef (r : Option Analyzer) (e : String) :
    Except String Analyzer :=
  match r with
  | none => .error nilPanicMsg
  | some a => .ok (storeError a e)

/-- Every Output Record name a probe of `main`'s configured task list
(main.go lines 49-83) can store: the 17 command-probe names, plus
`ip-address.txt` from `addIP` and `resolv.conf` from `addResolvConf`. -/
def configuredOutputNames : List String :=
  [ host ++ "-curl-ipv4.txt"
  , host ++ "-curl-ipv6.txt"
  , host ++ "-dig.txt"
  , host ++ "-dig-google.txt"
  , host ++ "-dig-google-trace.txt"
  , host ++ "-dig-cloudflare-josh.txt"
  , host ++ "-dig-cloudflare-kim.txt"
  , host ++ "-dig-cloudflare-josh-rfc4892.txt"
  , host ++ "-dig-cloudflare-kim-rfc4892.txt"
  , host ++ "-dig-cloudflare.txt"
  , "ip-addr.txt"
  , "ip-route.txt"
  , host ++ "-mtr-ipv4.json"
  , host ++ "-mtr-ipv6.json"
  , host ++ "-ping-ipv4.txt"
  , host ++ "-ping-ipv6.txt"
  , host ++ "-tracepath.txt"
  , "ip-address.txt"
  , "resolv.conf"
  ]

/-! ## Shared lemmas -/

/-- Running a schedule appends exactly the Output Records of its
operations, in schedule order. -/
theorem runOps_zipFiles (ops : List StoreOp) (a : Analyzer) :
    (runOps a ops).zipFiles = a.zipFiles ++ opOutputs ops := by
  induction ops generalizing a with
  | nil => simp [runOps, opOutputs]
  | cons op ops ih =>
    have h := ih (applyOp a op)
    show (runOps (applyOp a op) ops).zipFiles = _
    rw [h]
    cases op <;>
      simp [applyOp, storeFile, storeError, opOutputs, List.filterMap_cons,
        List.append_assoc]

/-- Running a schedule appends exactly the Error Records of its
operations, in schedule order. -/
theorem runOps_errors (ops : List StoreOp) (a : Analyzer) :
    (runOps a ops).errors = a.errors ++ opErrors ops := by
  induction ops generalizing a with
  | nil => simp [runOps, opErrors]
  | cons op ops ih =>
    have h := ih (applyOp a op)
    show (runOps (applyOp a op) ops).errors = _
    rw [h]
    cases op <;>
      simp [applyOp, storeFile, storeError, opErrors, List.filterMap_cons,
        List.append_assoc]

/-- Coherence: the operation sequence of a command probe has the same
effect as `createStoreCommand` applied directly. -/
theorem runOps_commandOps (f command : String) (args : List String)
    (output : String) (cmdErr : Option String) (a : Analyzer) :
    runOps a (commandOps f output cmdErr)
      = createStoreCommand f command args output cmdErr a := by
  cases cmdErr <;> rfl

/-- Coherence: the operation sequence of the fetch probe has the same
effect as `addIP` applied directly. -/
theorem runOps_addIPOps (o : FetchOutcome) (a : Analyzer) :
    runOps a (addIPOps o) = addIP o a := by
  cases o <;> rfl

/-- Coherence: the operation sequence of the read probe has the same
effect as `addResolvConf` applied directly. -/
theorem runOps_addResolvConfOps (o : Except String String) (a : Analyzer) :
    runOps a (addResolvConfOps o) = addResolvConf o a := by
  cases o <;> rfl

/-- Every stored error contributes its block to the rendered buffer. -/
theorem renderErrors_contains (l : List String) (e : String) (he : e ∈ l) :
    ∃ s t, renderErrors l = s ++ errorBlock e ++ t := by
  induction l with
  | nil => cases he
  | cons x xs ih =>
    rcases List.mem_cons.mp he with rfl | hx
    · exact ⟨"", renderErrors xs, by simp [renderErrors]⟩
    · obtain ⟨s, t, hst⟩ := ih hx
      exact ⟨errorBlock x ++ s, t, by
        simp [renderErrors, hst, String.append_assoc]⟩

/-- When every zip write succeeds, the loop appends every record in
order and reports no error. -/
theorem writeFilesFrom_all_ok (oc : Nat → WriteOutcome)
    (files : List ZipFile) (i : Nat) (w : List ZipFile)
    (h : ∀ j, oc j = WriteOutcome.ok) :
    writeFilesFrom oc files i w = (w ++ files, none) := by
  induction files generalizing i w with
  | nil => simp [writeFilesFrom]
  | cons zf rest ih =>
    simp [writeFilesFrom, h i, writeFileZ, ih]

/-- Stepping the write loop over a prefix of records whose writes all
succeed. -/
theorem writeFilesFrom_ok_prefix (oc : Nat → WriteOutcome)
    (l1 rest : List ZipFile) :
    ∀ (i : Nat) (w : List ZipFile),
      (∀ j, j < l1.length → oc (i + j) = WriteOutcome.ok) →
      writeFilesFrom oc (l1 ++ rest) i w
        = writeFilesFrom oc rest (i + l1.length) (w ++ l1) := by
  induction l1 with
  | nil => intro i w _; simp
  | cons zf l1 ih =>
    intro i w h
    have h0 : oc i = WriteOutcome.ok := by simpa using h 0 (Nat.succ_pos _)
    have h1 : ∀ j, j < l1.length → oc ((i + 1) + j) = WriteOutcome.ok := by
      intro j hj
      have := h (j + 1) (Nat.succ_lt_succ hj)
      rwa [show i + (j + 1) = (i + 1) + j by omega] at this
    calc writeFilesFrom oc ((zf :: l1) ++ rest) i w
        = writeFilesFrom oc (l1 ++ rest) (i + 1) (w ++ [zf]) := by
          simp [writeFilesFrom, h0, writeFileZ]
      _ = writeFilesFrom oc rest ((i + 1) + l1.length) ((w ++ [zf]) ++ l1) :=
          ih (i + 1) (w ++ [zf]) h1
      _ = writeFilesFrom oc rest (i + (zf :: l1).length) (w ++ zf :: l1) := by
          congr 1
          · simp [List.length_cons]; omega
          · simp

/-! ## Claim theorems -/

/-- C1: The Scheduler invokes every configured probe exactly once, each on
its own concurrent execution context, and the barrier holds the Error
Compiler back until every probe has returned; no probe failure cancels or
short-circuits sibling probes. Modelled: a concurrent execution is any
schedule of the mutex-guarded store appends in which each probe
contributes its operation sequence exactly once, i.e. any permutation of
the concatenation of the probes' operations (every interleaving is such a
permutation). For every such schedule, the state the Error Compiler sees
after the barrier contains every probe's Output and Error Records exactly
once — errors from failing probes included, so failures never suppress a
sibling's records. -/
theorem scheduler_every_probe_once (probes : List (List StoreOp))
    (sched : List StoreOp) (a : Analyzer) (h : sched.Perm probes.flatten) :
    (runOps a sched).zipFiles.Perm (a.zipFiles ++ opOutputs probes.flatten) ∧
    (runOps a sched).errors.Perm (a.errors ++ opErrors probes.flatten) := by
  constructor
  · rw [runOps_zipFiles]
    exact List.Perm.append_left _ (h.filterMap _)
  · rw [runOps_errors]
    exact List.Perm.append_left _ (h.filterMap _)

/-- Witness for C1: two probes — a failing command probe and a successful
one — under an interleaved schedule. -/
theorem scheduler_every_probe_once_witness :
    List.Perm
      [StoreOp.err "e1", StoreOp.out ⟨"b.txt", "B"⟩, StoreOp.out ⟨"a.txt", "A"⟩]
      ([[StoreOp.err "e1", StoreOp.out ⟨"a.txt", "A"⟩],
        [StoreOp.out ⟨"b.txt", "B"⟩]] : List (List StoreOp)).flatten ∧
    ((runOps ⟨[], []⟩
        [StoreOp.err "e1", StoreOp.out ⟨"b.txt", "B"⟩, StoreOp.out ⟨"a.txt", "A"⟩]).zipFiles.Perm
        ((⟨[], []⟩ : Analyzer).zipFiles ++
          opOutputs ([[StoreOp.err "e1", StoreOp.out ⟨"a.txt", "A"⟩],
            [StoreOp.out ⟨"b.txt", "B"⟩]] : List (List StoreOp)).flatten) ∧
      (runOps ⟨[], []⟩
        [StoreOp.err "e1", StoreOp.out ⟨"b.txt", "B"⟩, StoreOp.out ⟨"a.txt", "A"⟩]).errors.Perm
        ((⟨[], []⟩ : Analyzer).errors ++
          opErrors ([[StoreOp.err "e1", StoreOp.out ⟨"a.txt", "A"⟩],
            [StoreOp.out ⟨"b.txt", "B"⟩]] : List (List StoreOp)).flatten)) :=
  ⟨by decide,
    scheduler_every_probe_once
      [[StoreOp.err "e1", StoreOp.out ⟨"a.txt", "A"⟩],
        [StoreOp.out ⟨"b.txt", "B"⟩]]
      [StoreOp.err "e1", StoreOp.out ⟨"b.txt", "B"⟩, StoreOp.out ⟨"a.txt", "A"⟩]
      ⟨[], []⟩ (by decide)⟩

/-- C2 (bug in the code): `newAnalyzer` opens the archive file with
`O_WRONLY|O_CREATE` but WITHOUT `O_TRUNC` (main.go line 113), so a
pre-existing `mm-network-analysis.zip` is not truncated: writing a shorter
archive leaves the old file's trailing bytes in place (model: old bytes
`[1,2,3]`, new archive `[9]`, resulting file `[9,2,3]` — not `[9]`).
Adding `O_TRUNC` would give the behaviour the claim describes. -/
theorem newAnalyzer_open_keeps_stale_bytes :
    newAnalyzerOpenFlags &&& O_TRUNC = 0 ∧
    finalDiskBytes newAnalyzerOpenFlags [1, 2, 3] [9] = [9, 2, 3] ∧
    finalDiskBytes newAnalyzerOpenFlags [1, 2, 3] [9] ≠ [9] ∧
    finalDiskBytes (newAnalyzerOpenFlags ||| O_TRUNC) [1, 2, 3] [9] = [9] := by
  decide

/-- C3: A command probe always stores exactly one Output Record with the
captured combined output under the configured name — also on failure —
and additionally stores the wrapped execution error if and only if the
invocation failed. -/
theorem createStoreCommand_output_always_error_iff_failure
    (f command : String) (args : List String) (output : String)
    (cmdErr : Option String) (a : Analyzer) :
    (createStoreCommand f command args output cmdErr a).zipFiles
        = a.zipFiles ++ [⟨f, output⟩] ∧
    (createStoreCommand f command args output cmdErr a).errors
        = a.errors ++ (match cmdErr with
            | none => []
            | some e => [wrapErr ("error getting data for " ++ f) e]) := by
  cases cmdErr <;> simp [createStoreCommand, storeFile, storeError]

/-- C4: The fetch probe `addIP` and the read probe `addResolvConf` store,
on success, exactly one Output Record and no Error Record; on any failure
(connection, body-read, or file-read) exactly one Error Record and no
Output Record. Stated as full-state equalities, so nothing else is
touched in either case. -/
theorem fetch_read_probe_output_xor_error (a : Analyzer) :
    (∀ body, addIP (.success body) a
        = { a with zipFiles := a.zipFiles ++ [⟨"ip-address.txt", body⟩] }) ∧
    (∀ e, addIP (.getFailure e) a
        = { a with errors := a.errors ++ [wrapErr "error getting IP address" e] }) ∧
    (∀ e, addIP (.readFailure e) a
        = { a with errors := a.errors ++ [wrapErr "error reading IP address body" e] }) ∧
    (∀ c, addResolvConf (.ok c) a
        = { a with zipFiles := a.zipFiles ++ [⟨"resolv.conf", c⟩] }) ∧
    (∀ e, addResolvConf (.error e) a
        = { a with errors := a.errors ++ [wrapErr "error reading resolv.conf" e] }) :=
  ⟨fun _ => rfl, fun _ => rfl, fun _ => rfl, fun _ => rfl, fun _ => rfl⟩

/-- C5: `addErrors` appends an `errors.txt` Output Record if and only if
the error sequence is non-empty; the record is appended exactly once, its
content is the blocks of all accumulated errors in accumulation order,
and every stored error's message occurs in it followed by the
`\n\n----------\n\n` delimiter. -/
theorem addErrors_report_iff_nonempty (a : Analyzer) :
    (a.errors = [] → addErrors a = a) ∧
    (a.errors ≠ [] →
      (addErrors a).zipFiles
          = a.zipFiles ++ [⟨"errors.txt", renderErrors a.errors⟩] ∧
      ∀ e ∈ a.errors, ∃ s t,
        renderErrors a.errors = s ++ errorBlock e ++ t) := by
  constructor
  · intro h
    simp [addErrors, h]
  · intro h
    exact ⟨by simp [addErrors, h, storeFile],
      fun e he => renderErrors_contains _ _ he⟩

/-- Witness for C5: two accumulated errors produce one `errors.txt`
record containing both messages. -/
theorem addErrors_report_iff_nonempty_witness :
    (⟨["x", "y"], [⟨"f.txt", "F"⟩]⟩ : Analyzer).errors ≠ [] ∧
    ((addErrors ⟨["x", "y"], [⟨"f.txt", "F"⟩]⟩).zipFiles
        = (⟨["x", "y"], [⟨"f.txt", "F"⟩]⟩ : Analyzer).zipFiles ++
            [⟨"errors.txt",
              renderErrors (⟨["x", "y"], [⟨"f.txt", "F"⟩]⟩ : Analyzer).errors⟩] ∧
      ∀ e ∈ (⟨["x", "y"], [⟨"f.txt", "F"⟩]⟩ : Analyzer).errors, ∃ s t,
        renderErrors (⟨["x", "y"], [⟨"f.txt", "F"⟩]⟩ : Analyzer).errors
          = s ++ errorBlock e ++ t) :=
  ⟨by decide,
    (addErrors_report_iff_nonempty ⟨["x", "y"], [⟨"f.txt", "F"⟩]⟩).2 (by decide)⟩

/-- C6: When no zip write fails, archiving maps every Output Record in
the store to exactly one archive entry with the same name and identical
content, in store-iteration order, with no deduplication or reordering
(the statement holds for every store, duplicate names included). -/
theorem writeFiles_roundtrip (oc : Nat → WriteOutcome) (a : Analyzer)
    (w : List ZipFile) (h : ∀ j, oc j = WriteOutcome.ok) :
    writeFiles oc a w = (w ++ a.zipFiles, none) :=
  writeFilesFrom_all_ok oc a.zipFiles 0 w h

/-- Witness for C6: a store with a duplicated name archives to exactly
its own record list. -/
theorem writeFiles_roundtrip_witness :
    (∀ j, (fun _ : Nat => WriteOutcome.ok) j = WriteOutcome.ok) ∧
    writeFiles (fun _ => WriteOutcome.ok)
        ⟨[], [⟨"d.txt", "one"⟩, ⟨"d.txt", "two"⟩]⟩ []
      = ([] ++ [⟨"d.txt", "one"⟩, ⟨"d.txt", "two"⟩], none) :=
  ⟨fun _ => rfl,
    writeFiles_roundtrip (fun _ => WriteOutcome.ok)
      ⟨[], [⟨"d.txt", "one"⟩, ⟨"d.txt", "two"⟩]⟩ [] (fun _ => rfl)⟩

/-- C7: If creating or writing an archive entry fails, the remaining
records are not written and the wrapped error is returned to the caller;
the model never touches the Result Store (`writeFiles` reads
`a.zipFiles` only and returns the error instead of storing it). The two
conjuncts cover a failing `Create` (no entry added) and a failing `Write`
(the entry exists with the partially written bytes). -/
theorem writeFiles_failfast (oc : Nat → WriteOutcome) (errs : List String)
    (l1 : List ZipFile) (zf : ZipFile) (l2 : List ZipFile) (w : List ZipFile)
    (hok : ∀ j, j < l1.length → oc j = WriteOutcome.ok) :
    (∀ e, oc l1.length = WriteOutcome.createFailure e →
      writeFiles oc ⟨errs, l1 ++ zf :: l2⟩ w
        = (w ++ l1,
            some (wrapErr ("error creating " ++ zf.name ++ " in zip file") e))) ∧
    (∀ bytes e, oc l1.length = WriteOutcome.writeFailure bytes e →
      writeFiles oc ⟨errs, l1 ++ zf :: l2⟩ w
        = ((w ++ l1) ++ [⟨zf.name, bytes⟩],
            some (wrapErr ("error writing " ++ zf.name ++ " to zip file") e))) := by
  have base : writeFiles oc ⟨errs, l1 ++ zf :: l2⟩ w
      = writeFilesFrom oc (zf :: l2) l1.length (w ++ l1) := by
    have h := writeFilesFrom_ok_prefix oc l1 (zf :: l2) 0 w (by simpa using hok)
    simpa [writeFiles] using h
  constructor
  · intro e he
    rw [base]
    simp [writeFilesFrom, he, writeFileZ]
  · intro bytes e he
    rw [base]
    simp [writeFilesFrom, he, writeFileZ]

/-- Witness for C7: with the second write failing at entry creation, the
first record is archived, the third is skipped, and the wrapped error is
returned. -/
theorem writeFiles_failfast_witness :
    (∀ j, j < ([⟨"a.txt", "A"⟩] : List ZipFile).length →
      (fun i : Nat => if i = 1 then WriteOutcome.createFailure "disk full"
        else WriteOutcome.ok) j = WriteOutcome.ok) ∧
    ((fun i : Nat => if i = 1 then WriteOutcome.createFailure "disk full"
        else WriteOutcome.ok) ([⟨"a.txt", "A"⟩] : List ZipFile).length
      = WriteOutcome.createFailure "disk full") ∧
    writeFiles
        (fun i : Nat => if i = 1 then WriteOutcome.createFailure "disk full"
          else WriteOutcome.ok)
        ⟨[], [⟨"a.txt", "A"⟩] ++ (⟨"b.txt", "B"⟩ : ZipFile) :: [⟨"c.txt", "C"⟩]⟩ []
      = ([] ++ [⟨"a.txt", "A"⟩],
          some (wrapErr ("error creating " ++ "b.txt" ++ " in zip file") "disk full")) :=
  ⟨by decide, by decide,
    (writeFiles_failfast
        (fun i : Nat => if i = 1 then WriteOutcome.createFailure "disk full"
          else WriteOutcome.ok)
        [] [⟨"a.txt", "A"⟩] ⟨"b.txt", "B"⟩ [⟨"c.txt", "C"⟩] []
        (by decide)).1 "disk full" (by decide)⟩

/-- C8: The Error Compiler leaves the error sequence unchanged: it
neither mutates nor clears any Error Record, so a re-read sees the same
records in the same order. -/
theorem addErrors_preserves_error_sequence (a : Analyzer) :
    (addErrors a).errors = a.errors := by
  by_cases h : a.errors = [] <;> simp [addErrors, h, storeFile]

/-- C9: When the archive open fails, `main` keeps a nil analyzer pointer
(main.go lines 44-47), and the first `storeFile` or `storeError` call
through it panics with a nil-pointer dereference; with a successfully
opened analyzer the same calls succeed, so a successful open is the
precondition for every store operation. -/
theorem nil_analyzer_after_failed_open (e name contents msg : String) :
    mainAnalyzerRef (newAnalyzer (.error e)) = none ∧
    storeFileRef (mainAnalyzerRef (newAnalyzer (.error e))) name contents
      = .error nilPanicMsg ∧
    storeErrorRef (mainAnalyzerRef (newAnalyzer (.error e))) msg
      = .error nilPanicMsg ∧
    (∀ a : Analyzer, storeFileRef (some a) name contents
      = .ok (storeFile a name contents)) ∧
    (∀ a : Analyzer, storeErrorRef (some a) msg = .ok (storeError a msg)) :=
  ⟨rfl, rfl, rfl, fun _ => rfl, fun _ => rfl⟩

/-- C10: With at least one accumulated error, `addErrors` appends the
`errors.txt` record after every probe-produced record, so it is the last
record in the store; when archiving succeeds, entries are written in
store order, hence `errors.txt` is the last entry written. No configured
probe output is named `errors.txt`, so the report never collides with a
probe record. -/
theorem errors_txt_last_entry (oc : Nat → WriteOutcome) (a : Analyzer)
    (hne : a.errors ≠ []) (hok : ∀ j, oc j = WriteOutcome.ok) :
    (addErrors a).zipFiles
        = a.zipFiles ++ [⟨"errors.txt", renderErrors a.errors⟩] ∧
    writeFiles oc (addErrors a) [] = ((addErrors a).zipFiles, none) ∧
    ((addErrors a).zipFiles).getLast?
        = some ⟨"errors.txt", renderErrors a.errors⟩ ∧
    "errors.txt" ∉ configuredOutputNames := by
  have h1 : (addErrors a).zipFiles
      = a.zipFiles ++ [⟨"errors.txt", renderErrors a.errors⟩] := by
    simp [addErrors, hne, storeFile]
  refine ⟨h1, ?_, ?_, by decide⟩
  · rw [writeFiles_roundtrip oc (addErrors a) [] hok]
    simp
  · rw [h1]
    exact List.getLast?_concat _

/-- Witness for C10: one error and one probe record; the archive ends
with `errors.txt`. -/
theorem errors_txt_last_entry_witness :
    ((⟨["boom"], [⟨"x.txt", "X"⟩]⟩ : Analyzer).errors ≠ [] ∧
      (∀ j, (fun _ : Nat => WriteOutcome.ok) j = WriteOutcome.ok)) ∧
    ((addErrors ⟨["boom"], [⟨"x.txt", "X"⟩]⟩).zipFiles
        = (⟨["boom"], [⟨"x.txt", "X"⟩]⟩ : Analyzer).zipFiles ++
            [⟨"errors.txt",
              renderErrors (⟨["boom"], [⟨"x.txt", "X"⟩]⟩ : Analyzer).errors⟩] ∧
      writeFiles (fun _ => WriteOutcome.ok) (addErrors ⟨["boom"], [⟨"x.txt", "X"⟩]⟩) []
        = ((addErrors ⟨["boom"], [⟨"x.txt", "X"⟩]⟩).zipFiles, none) ∧
      ((addErrors ⟨["boom"], [⟨"x.txt", "X"⟩]⟩).zipFiles).getLast?
        = some ⟨"errors.txt",
            renderErrors (⟨["boom"], [⟨"x.txt", "X"⟩]⟩ : Analyzer).errors⟩ ∧
      "errors.txt" ∉ configuredOutputNames) :=
  ⟨⟨by decide, fun _ => rfl⟩,
    errors_txt_last_entry (fun _ => WriteOutcome.ok)
      ⟨["boom"], [⟨"x.txt", "X"⟩]⟩ (by decide) (fun _ => rfl)⟩

end MMNetworkAnalyzer
